import Mathlib

/-!
Shallow embedding of the dicom-loader-ts core (src/parser.dicom.ts and
src/preloader.ts).  The external `dicom-parser` DataSet accessor (§6 of the
spec: an already-parsed tag → element tree with typed reads) is modelled as an
attribute-map tree; every function below is translated from the TypeScript
source.  JavaScript `undefined`/`null` absence is modelled with `Option`,
JavaScript truthiness of strings (empty string is falsy) and of numbers
(zero is falsy) with explicit helpers.
-/

namespace DicomLoader

mutual

/-- DataSet as exposed by dicom-parser: typed attribute reads keyed by tag
strings plus an `elements` map whose entries may carry nested sequence items.
Each typed read models the corresponding dicom-parser accessor
(`string`, `floatString`, `intString`, `uint16`). -/
inductive DataSet : Type where
  | mk : (strings : List (String × String)) →
         (floatStrings : List (String × ℚ)) →
         (intStrings : List (String × Int)) →
         (uint16s : List (String × Nat)) →
         (elems : List (String × Element)) → DataSet

/-- Element of a DataSet: byte offset/length of its value in the backing
buffer, optional sequence items, optional encapsulated-pixel-data fragments
(only their count is ever read, via `.length`, so fragments are carried as a
list of fragment descriptors reduced to their sizes) and an optional basic
offset table. -/
inductive Element : Type where
  | mk : (dataOffset : Nat) → (byteLength : Nat) →
         (items : Option (List Item)) →
         (fragments : Option (List Nat)) →
         (basicOffsetTable : Option (List Nat)) → Element

/-- Sequence item: dicom-parser items expose an optional `dataSet`. -/
inductive Item : Type where
  | mk : (dataSet : Option DataSet) → Item

end

def DataSet.strings : DataSet → List (String × String)
  | .mk s _ _ _ _ => s

def DataSet.floatStrings : DataSet → List (String × ℚ)
  | .mk _ f _ _ _ => f

def DataSet.intStrings : DataSet → List (String × Int)
  | .mk _ _ i _ _ => i

def DataSet.uint16s : DataSet → List (String × Nat)
  | .mk _ _ _ u _ => u

def DataSet.elems : DataSet → List (String × Element)
  | .mk _ _ _ _ e => e

/-- dicom-parser `dataSet.string(tag)`: string value or undefined. -/
def DataSet.string (ds : DataSet) (tag : String) : Option String :=
  List.lookup tag ds.strings

/-- dicom-parser `dataSet.floatString(tag)`: parsed number or undefined. -/
def DataSet.floatString (ds : DataSet) (tag : String) : Option ℚ :=
  List.lookup tag ds.floatStrings

/-- dicom-parser `dataSet.intString(tag)`: parsed integer or undefined. -/
def DataSet.intString (ds : DataSet) (tag : String) : Option Int :=
  List.lookup tag ds.intStrings

/-- dicom-parser `dataSet.uint16(tag)`: 16-bit read or undefined. -/
def DataSet.uint16 (ds : DataSet) (tag : String) : Option Nat :=
  List.lookup tag ds.uint16s

/-- dicom-parser `dataSet.elements[tag]`. -/
def DataSet.elements (ds : DataSet) (tag : String) : Option Element :=
  List.lookup tag ds.elems

def Element.dataOffset : Element → Nat
  | .mk o _ _ _ _ => o

def Element.byteLength : Element → Nat
  | .mk _ l _ _ _ => l

def Element.items : Element → Option (List Item)
  | .mk _ _ it _ _ => it

def Element.fragments : Element → Option (List Nat)
  | .mk _ _ _ fr _ => fr

def Element.basicOffsetTable : Element → Option (List Nat)
  | .mk _ _ _ _ b => b

def Item.dataSet : Item → Option DataSet
  | .mk d => d

/-- JavaScript truthiness of a string-or-nullish value: null/undefined and
the empty string are falsy. -/
def jsTruthyS : Option String → Bool
  | some s => s != ""
  | none => false

/-- JavaScript `a || b` on string-or-nullish values. -/
def jsOrS (a b : Option String) : Option String :=
  if jsTruthyS a then a else b

/-- JavaScript truthiness of a number-or-nullish value: null/undefined and
zero are falsy. -/
def jsTruthyQ : Option ℚ → Bool
  | some q => q != 0
  | none => false

/-- JavaScript `a || b` on number-or-nullish values. -/
def jsOrQ (a b : Option ℚ) : Option ℚ :=
  if jsTruthyQ a then a else b

/-- JavaScript truthiness of `xs?.length`. -/
def jsTruthyN : Option Nat → Bool
  | some n => n != 0
  | none => false

/-- JavaScript strict inequality `a !== b` on number-or-undefined values
(`undefined !== undefined` is false, a number is always `!==` undefined). -/
def jsStrictNeqNum : Option Int → Option Int → Bool
  | none, none => false
  | some a, some b => a != b
  | _, _ => true

/-- `_findInGroupSequence(sequence, subsequence, index)` from
parser.dicom.ts: items[index] of the group sequence, then items[0] of the
subsequence within it. -/
def findInGroupSequence (ds : DataSet) (sequence subsequence : String)
    (index : Nat) : Option DataSet :=
  ((((ds.elements sequence).bind Element.items).bind
      (fun its => its.get? index)).bind Item.dataSet).bind
    (fun inner =>
      (((inner.elements subsequence).bind Element.items).bind
          (fun its => its.get? 0)).bind Item.dataSet)

/-- `_findStringInGroupSequence` from parser.dicom.ts. -/
def findStringInGroupSequence (ds : DataSet) (sequence subsequence tag : String)
    (index : Nat) : Option String :=
  (findInGroupSequence ds sequence subsequence index).bind
    (fun d => d.string tag)

/-- `_findStringInFrameGroupSequence` from parser.dicom.ts: shared functional
group sequence (item 0) `||` per-frame functional group sequence (item
`index`). -/
def findStringInFrameGroupSequence (ds : DataSet) (subsequence tag : String)
    (index : Nat) : Option String :=
  jsOrS (findStringInGroupSequence ds "x52009229" subsequence tag 0)
    (findStringInGroupSequence ds "x52009230" subsequence tag index)

/-- `_findStringInSequence` from parser.dicom.ts: tag inside item 0 of a
root-level sequence. -/
def findStringInSequence (ds : DataSet) (sequenceTag tag : String) :
    Option String :=
  ((((ds.elements sequenceTag).bind Element.items).bind
      (fun its => its.get? 0)).bind Item.dataSet).bind
    (fun d => d.string tag)

/-- `_findStringEverywhere` from parser.dicom.ts: frame group sequences, then
the PET module sequence x00540022, then the root data set. -/
def findStringEverywhere (ds : DataSet) (subsequence tag : String)
    (index : Nat) : Option String :=
  let t1 := findStringInFrameGroupSequence ds subsequence tag index
  let t2 := if jsTruthyS t1 then t1 else findStringInSequence ds "x00540022" tag
  if jsTruthyS t2 then t2 else ds.string tag

/-- `sopInstanceUID(frameIndex)` resolver call from parser.dicom.ts. -/
def sopInstanceUID (ds : DataSet) (frameIndex : Nat) : Option String :=
  findStringEverywhere ds "x2005140f" "x00080018" frameIndex

/-- Resolver call inside `imageOrientation(frameIndex)` (the source then
splits the string on backslash into six floats). -/
def imageOrientationString (ds : DataSet) (frameIndex : Nat) : Option String :=
  findStringEverywhere ds "x00209116" "x00200037" frameIndex

/-- Resolver call inside `imagePosition(frameIndex)`. -/
def imagePositionString (ds : DataSet) (frameIndex : Nat) : Option String :=
  findStringEverywhere ds "x00209113" "x00200032" frameIndex

/-- Resolver call inside `pixelSpacing(frameIndex)` (the source afterwards
falls back to tag x00181164 and splits on backslash). -/
def pixelSpacingString (ds : DataSet) (frameIndex : Nat) : Option String :=
  findStringEverywhere ds "x00289110" "x00280030" frameIndex

/-- `_findFloatStringInGroupSequence` from parser.dicom.ts: a direct
`floatString` read of the flat tag first; the group sequence is consulted
only when the direct read is undefined. -/
def findFloatStringInGroupSequence (ds : DataSet)
    (sequence subsequence tag : String) (index : Nat) : Option ℚ :=
  let dataInGroupSequence := ds.floatString tag
  match dataInGroupSequence with
  | none =>
    match findInGroupSequence ds sequence subsequence index with
    | some groupSequence => groupSequence.floatString tag
    | none => none
  | some v => some v

/-- `_findFloatStringInFrameGroupSequence` from parser.dicom.ts: shared
variant (item 0) `||` per-frame variant (item `index`). -/
def findFloatStringInFrameGroupSequence (ds : DataSet) (subsequence tag : String)
    (index : Nat) : Option ℚ :=
  jsOrQ (findFloatStringInGroupSequence ds "x52009229" subsequence tag 0)
    (findFloatStringInGroupSequence ds "x52009230" subsequence tag index)

/-- `rescaleIntercept(frameIndex)` from parser.dicom.ts. -/
def rescaleIntercept (ds : DataSet) (frameIndex : Nat) : Option ℚ :=
  findFloatStringInFrameGroupSequence ds "x00289145" "x00281052" frameIndex

/-- `rescaleSlope(frameIndex)` from parser.dicom.ts. -/
def rescaleSlope (ds : DataSet) (frameIndex : Nat) : Option ℚ :=
  findFloatStringInFrameGroupSequence ds "x00289145" "x00281053" frameIndex

/-- `windowCenter(frameIndex)` from parser.dicom.ts. -/
def windowCenter (ds : DataSet) (frameIndex : Nat) : Option ℚ :=
  findFloatStringInFrameGroupSequence ds "x00289132" "x00281050" frameIndex

/-- `windowWidth(frameIndex)` from parser.dicom.ts. -/
def windowWidth (ds : DataSet) (frameIndex : Nat) : Option ℚ :=
  findFloatStringInFrameGroupSequence ds "x00289132" "x00281051" frameIndex

/-- `referencedSegmentNumber(frameIndex)` from parser.dicom.ts: the
per-frame group sequence x52009230 / subsequence x0062000a; its uint16
x0062000b when found, the sentinel -1 when the lookup fails.  `none` models
JavaScript undefined (a present subsequence whose x0062000b is absent). -/
def referencedSegmentNumber (ds : DataSet) (frameIndex : Nat) : Option Int :=
  match findInGroupSequence ds "x52009230" "x0062000a" frameIndex with
  | some referencedSegmentNumberElement =>
    (referencedSegmentNumberElement.uint16 "x0062000b").map Int.ofNat
  | none => some (-1)

/-- `photometricInterpretation` getter (tag x00280004). -/
def photometricInterpretation (ds : DataSet) : Option String :=
  ds.string "x00280004"

/-- `planarConfiguration` getter (tag x00280006). -/
def planarConfiguration (ds : DataSet) : Option Nat :=
  ds.uint16 "x00280006"

/-- `samplesPerPixel` getter (tag x00280002). -/
def samplesPerPixel (ds : DataSet) : Option Nat :=
  ds.uint16 "x00280002"

/-- `numberOfFrames` getter (tag x00280008, read as intString). -/
def numberOfFrames (ds : DataSet) : Option Int :=
  ds.intString "x00280008"

/-- `transferSyntaxUID` getter (tag x00020010). -/
def transferSyntaxUID (ds : DataSet) : Option String :=
  ds.string "x00020010"

/-- `rows` getter (tag x00280010). -/
def rows (ds : DataSet) : Option Nat :=
  ds.uint16 "x00280010"

/-- `columns` getter (tag x00280011). -/
def columns (ds : DataSet) : Option Nat :=
  ds.uint16 "x00280011"

/-- `bitsAllocated` getter (tag x00280100). -/
def bitsAllocated (ds : DataSet) : Option Nat :=
  ds.uint16 "x00280100"

/-- `pixelRepresentation` getter (tag x00280103). -/
def pixelRepresentation (ds : DataSet) : Option Nat :=
  ds.uint16 "x00280103"

/-- `numberOfChannels` getter from parser.dicom.ts: 3 when the photometric
interpretation equals one of the seven listed color strings, else 1.  The
source phrases the condition as a negated conjunction of `!==` tests. -/
def numberOfChannels (ds : DataSet) : Nat :=
  let pi := photometricInterpretation ds
  if !(pi != some "RGB" && pi != some "PALETTE COLOR" &&
       pi != some "YBR_FULL" && pi != some "YBR_FULL_422" &&
       pi != some "YBR_PARTIAL_422" && pi != some "YBR_PARTIAL_420" &&
       pi != some "YBR_RCT")
  then 3 else 1

/-- `framesAreFragmented()` from parser.dicom.ts: strict JavaScript
inequality between the declared frame count (x00280008) and
`pixelDataElement?.fragments?.length`. -/
def framesAreFragmented (ds : DataSet) : Bool :=
  jsStrictNeqNum (ds.intString "x00280008")
    (((ds.elements "x7fe00010").bind Element.fragments).map
      (fun fr => (fr.length : Int)))

/-- Outcome of `getEncapsulatedImageFrame`: which dicom-parser
reconstruction routine is invoked, and with which frame index.
`viaOffsetTable` is `readEncapsulatedImageFrame` driven by the element's own
basic offset table, `viaSynthesizedJpegTable` is the same routine driven by
`createJPEGBasicOffsetTable(dataSet, pixelDataElement)`, and `fromFragments`
is `readEncapsulatedPixelDataFromFragments`. -/
inductive EncapFrameRead where
  | viaOffsetTable (frameIndex : Nat)
  | viaSynthesizedJpegTable (frameIndex : Nat)
  | fromFragments (frameIndex : Nat)
  deriving DecidableEq

/-- `getEncapsulatedImageFrame(frameIndex)` from parser.dicom.ts. -/
def getEncapsulatedImageFrame (ds : DataSet) (frameIndex : Nat) :
    EncapFrameRead :=
  if (ds.elements "x7fe00010").isSome &&
     jsTruthyN (((ds.elements "x7fe00010").bind Element.basicOffsetTable).map
       List.length) then
    EncapFrameRead.viaOffsetTable frameIndex
  else if framesAreFragmented ds then
    EncapFrameRead.viaSynthesizedJpegTable frameIndex
  else
    EncapFrameRead.fromFragments frameIndex

/-- Arguments assembled by `_decodePixelData` for the external
`decode(pixelData, hints, transferSyntaxUID)` call: the byte range sliced
out of the backing buffer and the format hints. -/
structure DecodeCall where
  byteOffset : Nat
  byteLength : Nat
  rows : Option Nat
  columns : Option Nat
  bitsAllocated : Option Nat
  samplesPerPixel : Option Nat
  signed : Bool
  transferSyntaxUID : Option String
  deriving DecidableEq

/-- `_decodePixelData(_frameIndex)` from parser.dicom.ts, up to the external
codec: the byte range handed to `decode` is the whole pixel-data element
(x7fe00010) at `dataOffset` / `length`; the `_frameIndex` parameter is
unused by the source.  `none` models the TypeError thrown when the
pixel-data element is absent (`pixelDataElement.dataOffset` on undefined). -/
def decodePixelData (ds : DataSet) (_frameIndex : Nat) : Option DecodeCall :=
  match ds.elements "x7fe00010" with
  | some pixelDataElement =>
    some { byteOffset := pixelDataElement.dataOffset
           byteLength := pixelDataElement.byteLength
           rows := rows ds
           columns := columns ds
           bitsAllocated := bitsAllocated ds
           samplesPerPixel := samplesPerPixel ds
           signed := pixelRepresentation ds == some 1
           transferSyntaxUID := transferSyntaxUID ds }
  | none => none

/-- Runtime kind of the typed sample array produced by the external codec,
mirroring the `instanceof` switch of `_convertColorSpace`: the four
recognized integer array kinds and a stand-in for any other typed array
(which that switch rejects). -/
inductive TypedKind where
  | int8
  | uint8
  | int16
  | uint16
  | otherTypedArray
  deriving DecidableEq

/-- Decoded sample buffer: the runtime array kind plus its numeric
contents. -/
structure TypedArrayBuf where
  kind : TypedKind
  data : List ℚ
  deriving DecidableEq

/-- Kinds accepted by the `instanceof` chains in `_convertColorSpace`. -/
def supportedForConvert : TypedKind → Bool
  | .int8 => true
  | .uint8 => true
  | .int16 => true
  | .uint16 => true
  | .otherTypedArray => false

/-- JavaScript ToInteger truncation toward zero of a finite number. -/
def jsTrunc (q : ℚ) : Int := if 0 ≤ q then ⌊q⌋ else -⌊-q⌋

/-- Wrap a truncated integer into the value range of an integer typed-array
element (JavaScript ToInt8 / ToUint8 / ToInt16 / ToUint16). -/
def wrapStore : TypedKind → Int → Int
  | .int8, n => (n + 128).emod 256 - 128
  | .uint8, n => n.emod 256
  | .int16, n => (n + 32768).emod 65536 - 32768
  | .uint16, n => n.emod 65536
  | .otherTypedArray, n => n

/-- Value observed after assigning the number `q` to an element of a typed
array of kind `k` (truncation toward zero, then wrap to the element range).
The `otherTypedArray` kind never reaches a store in the modelled branches:
`_convertColorSpace` rejects it before allocating an output array. -/
def storeVal (k : TypedKind) (q : ℚ) : ℚ :=
  match k with
  | .otherTypedArray => q
  | _ => ((wrapStore k (jsTrunc q) : Int) : ℚ)

/-- Output assembled by a per-pixel loop pushing three samples per
iteration, as the deinterleave and YBR_FULL loops of `_convertColorSpace`
do. -/
def pixelLoop (n : Nat) (f : Nat → List ℚ) : List ℚ :=
  (List.range n).flatMap f

/-- Loop body of the `planarConfiguration === 1` branch of
`_convertColorSpace`: pixel `i` receives `plane0[i], plane1[i], plane2[i]`
(read indices `i`, `numPixels + i`, `2 numPixels + i`). -/
def planarTriple (k : TypedKind) (d : List ℚ) (numPixels i : Nat) : List ℚ :=
  [storeVal k (d.getD i 0),
   storeVal k (d.getD (numPixels + i) 0),
   storeVal k (d.getD (2 * numPixels + i) 0)]

/-- Planar-to-interleaved copy of the `planarConfiguration === 1` branch of
`_convertColorSpace`: `numPixels = length / 3`.  JavaScript index
arithmetic is integral only when the length is a multiple of 3; the branch
is used (and reasoned about) under that assumption. -/
def deinterleavePlanes (k : TypedKind) (d : List ℚ) : List ℚ :=
  pixelLoop (d.length / 3) (planarTriple k d (d.length / 3))

/-- Loop body of the `YBR_FULL` branch of `_convertColorSpace`: per pixel,
`R = y + 1.402 (cr - 128)`, `G = y - 0.34414 (cb - 128) - 0.71414 (cr -
128)`, `B = y + 1.772 (cb - 128)`, each stored through the typed-array
element coercion. -/
def ybrTriple (k : TypedKind) (d : List ℚ) (i : Nat) : List ℚ :=
  let y := d.getD (3 * i) 0
  let cb := d.getD (3 * i + 1) 0
  let cr := d.getD (3 * i + 2) 0
  [storeVal k (y + 1.402 * (cr - 128)),
   storeVal k (y - 0.34414 * (cb - 128) - 0.71414 * (cr - 128)),
   storeVal k (y + 1.772 * (cb - 128))]

/-- YCbCr to RGB conversion of the `YBR_FULL` branch of
`_convertColorSpace`: `nPixels = length / 3` iterations of `ybrTriple`. -/
def ybrFullToRGB (k : TypedKind) (d : List ℚ) : List ℚ :=
  pixelLoop (d.length / 3) (ybrTriple k d)

/-- `_interpretAsRGB(photometricInterpretation)` from parser.dicom.ts. -/
def interpretAsRGB (pi : String) : Bool :=
  ["RGB", "YBR_RCT", "YBR_ICT", "YBR_FULL_422"].contains pi

/-- Errors thrown by `_convertColorSpace`. -/
inductive ColorError where
  | unsupportedTypedArray
  | unsupportedPhotometric (pi : Option String)
  deriving DecidableEq

/-- `_convertColorSpace(uncompressedData)` from parser.dicom.ts.  A missing
planar configuration defaults to 0 (the source also logs an advisory, a
side effect not modelled here). -/
def convertColorSpace (ds : DataSet) (u : TypedArrayBuf) :
    Except ColorError TypedArrayBuf :=
  let pi := photometricInterpretation ds
  let planar : Nat :=
    match planarConfiguration ds with
    | none => 0
    | some p => p
  let rgb : Bool :=
    match pi with
    | some s => interpretAsRGB s
    | none => false
  if rgb && planar == 0 then
    Except.ok u
  else if rgb && planar == 1 then
    if supportedForConvert u.kind then
      Except.ok ⟨u.kind, deinterleavePlanes u.kind u.data⟩
    else
      Except.error ColorError.unsupportedTypedArray
  else if pi == some "YBR_FULL" then
    if supportedForConvert u.kind then
      Except.ok ⟨u.kind, ybrFullToRGB u.kind u.data⟩
    else
      Except.error ColorError.unsupportedTypedArray
  else
    Except.error (ColorError.unsupportedPhotometric pi)

/-- `extractPixelData(frameIndex)` from parser.dicom.ts, with the external
codec abstracted as `decodeFn` (§4.3 of the spec): decode the byte range
selected by `_decodePixelData`, then convert color space iff
`numberOfChannels > 1`.  The outer `none` models the TypeError on a missing
pixel-data element; `Except.error` models the `_convertColorSpace` throws. -/
def extractPixelData (ds : DataSet) (decodeFn : DecodeCall → TypedArrayBuf)
    (frameIndex : Nat) : Option (Except ColorError TypedArrayBuf) :=
  (decodePixelData ds frameIndex).map (fun call =>
    let decompressedData := decodeFn call
    if numberOfChannels ds > 1 then convertColorSpace ds decompressedData
    else Except.ok decompressedData)

/-- Modelled from the spec (§4.2): the per-frame byte offset the spec says
native pixel data uses, `frameIndex × bitsAllocated × rows × columns ×
samplesPerPixel / 8`.  Stated for comparison with `decodePixelData`; the
source computes no such offset. -/
def specNativeFrameOffset (bits rws cols spp frameIndex : Nat) : Nat :=
  frameIndex * bits * rws * cols * spp / 8

/-- One parsed file's sort keys, from preloader.ts (`DicomFile`; the `file`
handle itself is external and not carried). -/
structure DicomFile where
  SOPInstanceUID : String
  sliceLocation : Option ℚ
  imagePositionZ : Option ℚ
  instanceNumber : Option Int
  deriving DecidableEq

/-- The pairwise comparator of `sortDicomFiles` in preloader.ts: three
tiers, each used only when both records carry the key, else fall through;
0 when no tier applies. -/
def compareDicomFiles (a b : DicomFile) : ℚ :=
  match a.sliceLocation, b.sliceLocation with
  | some x, some y => x - y
  | _, _ =>
    match a.imagePositionZ, b.imagePositionZ with
    | some x, some y => x - y
    | _, _ =>
      match a.instanceNumber, b.instanceNumber with
      | some x, some y => (x : ℚ) - (y : ℚ)
      | _, _ => 0

/-- Stable insertion step: `x` passes records strictly smaller than it and
stops before the first record not comparing strictly below, so records the
comparator ties keep their relative input order. -/
def insertByLt (lt : DicomFile → DicomFile → Bool) (x : DicomFile) :
    List DicomFile → List DicomFile
  | [] => [x]
  | y :: ys =>
    if lt y x then y :: insertByLt lt x ys else x :: y :: ys

/-- `sortDicomFiles` from preloader.ts: JavaScript `Array.prototype.sort`
with `compareDicomFiles` is modelled as a stable comparison sort. -/
def sortDicomFiles (files : List DicomFile) : List DicomFile :=
  files.foldr
    (fun x acc => insertByLt (fun a b => decide (compareDicomFiles a b < 0)) x acc)
    []

/-!
Helper lemmas about the per-pixel loops.
-/

lemma pixelLoop_succ (n : Nat) (f : Nat → List ℚ) :
    pixelLoop (n + 1) f = pixelLoop n f ++ f n := by
  simp [pixelLoop, List.range_succ]

lemma pixelLoop_length (n : Nat) (f : Nat → List ℚ) (h : ∀ i, (f i).length = 3) :
    (pixelLoop n f).length = 3 * n := by
  induction n with
  | zero => rfl
  | succ m ih =>
    rw [pixelLoop_succ, List.length_append, ih, h m]
    ring

lemma pixelLoop_getD (n : Nat) (f : Nat → List ℚ) (h : ∀ i, (f i).length = 3)
    (i r : Nat) (hi : i < n) (hr : r < 3) :
    (pixelLoop n f).getD (3 * i + r) 0 = (f i).getD r 0 := by
  induction n with
  | zero => exact absurd hi (Nat.not_lt_zero i)
  | succ m ih =>
    rw [pixelLoop_succ]
    rcases Nat.lt_succ_iff_lt_or_eq.mp hi with h1 | h2
    · rw [List.getD_append _ _ _ _ (by rw [pixelLoop_length m f h]; omega)]
      exact ih h1
    · subst h2
      have hlen : (pixelLoop i f).length = 3 * i := pixelLoop_length i f h
      rw [List.getD_append_right _ _ _ _ (by rw [hlen]; omega), hlen]
      congr 1
      omega

/-!
Concrete data sets used as counterexamples and witnesses.
-/

/-- Data set whose shared functional group sequence holds the SOP instance
UID as an empty string while the root holds a non-empty one. -/
def cexSharedEmptyDs : DataSet :=
  .mk [("x00080018", "direct")] [] [] []
    [("x52009229",
      .mk 0 0
        (some [.mk (some (.mk [] [] [] []
          [("x2005140f",
            .mk 0 0 (some [.mk (some (.mk [("x00080018", "")] [] [] [] []))])
              none none)]))])
        none none)]

/-- Data set whose shared functional group sequence holds a non-empty SOP
instance UID and nothing else anywhere. -/
def sharedPopulatedDs : DataSet :=
  .mk [] [] [] []
    [("x52009229",
      .mk 0 0
        (some [.mk (some (.mk [] [] [] []
          [("x2005140f",
            .mk 0 0 (some [.mk (some (.mk [("x00080018", "shared")] [] [] [] []))])
              none none)]))])
        none none)]

/-- Data set with no attributes at all. -/
def emptyDs : DataSet := .mk [] [] [] [] []

/-!
C1.
-/

/-- C1 counterexample: the shared functional group tier yields a value (the
empty string) for the SOP instance UID, yet the resolver consults later
tiers and returns the root value instead of the shared one, so the earlier
tier's value did not win. -/
theorem findStringEverywhere_emptyShared_cex :
    findStringInGroupSequence cexSharedEmptyDs "x52009229" "x2005140f" "x00080018" 0
      = some "" ∧
    sopInstanceUID cexSharedEmptyDs 0 = some "direct" ∧
    ("" : String) ≠ "direct" := by
  refine ⟨rfl, rfl, by decide⟩

/-- C1 amended: the resolver searches shared functional group sequence
(x52009229, item 0, subsequence, primary tag), then per-frame functional
group sequence (x52009230, item k), then the PET sequence (x00540022, item
0), then the root, and returns the first tier whose value is truthy
(present and non-empty); a tier holding the empty string is skipped like an
absent one, and when no earlier tier is truthy the root read is returned
as-is.  When the shared tier is truthy the same value is returned for every
frame index. -/
theorem findStringEverywhere_precedence (ds : DataSet) (subseq tag : String)
    (k : Nat) :
    (jsTruthyS (findStringInGroupSequence ds "x52009229" subseq tag 0) = true →
       findStringEverywhere ds subseq tag k =
         findStringInGroupSequence ds "x52009229" subseq tag 0) ∧
    (jsTruthyS (findStringInGroupSequence ds "x52009229" subseq tag 0) = false →
     jsTruthyS (findStringInGroupSequence ds "x52009230" subseq tag k) = true →
       findStringEverywhere ds subseq tag k =
         findStringInGroupSequence ds "x52009230" subseq tag k) ∧
    (jsTruthyS (findStringInGroupSequence ds "x52009229" subseq tag 0) = false →
     jsTruthyS (findStringInGroupSequence ds "x52009230" subseq tag k) = false →
     jsTruthyS (findStringInSequence ds "x00540022" tag) = true →
       findStringEverywhere ds subseq tag k =
         findStringInSequence ds "x00540022" tag) ∧
    (jsTruthyS (findStringInGroupSequence ds "x52009229" subseq tag 0) = false →
     jsTruthyS (findStringInGroupSequence ds "x52009230" subseq tag k) = false →
     jsTruthyS (findStringInSequence ds "x00540022" tag) = false →
       findStringEverywhere ds subseq tag k = ds.string tag) := by
  refine ⟨?_, ?_, ?_, ?_⟩
  · intro h1
    simp [findStringEverywhere, findStringInFrameGroupSequence, jsOrS, h1]
  · intro h1 h2
    simp [findStringEverywhere, findStringInFrameGroupSequence, jsOrS, h1, h2]
  · intro h1 h2 h3
    simp [findStringEverywhere, findStringInFrameGroupSequence, jsOrS, h1, h2, h3]
  · intro h1 h2 h3
    simp [findStringEverywhere, findStringInFrameGroupSequence, jsOrS, h1, h2, h3]

/-- C1 witness: with only the shared tier populated, the resolver returns
the shared value at an arbitrary frame index. -/
theorem findStringEverywhere_precedence_witness :
    findStringEverywhere sharedPopulatedDs "x2005140f" "x00080018" 5 = some "shared" := by
  rw [(findStringEverywhere_precedence sharedPopulatedDs "x2005140f" "x00080018" 5).1 rfl]
  rfl

/-!
C5.
-/

/-- C5: when no tier of the string resolver holds a value, and when neither
the direct float-string read nor either group sequence holds a value, both
resolver variants return the absence marker (none, modelling null), never a
numeric zero and without raising. -/
theorem resolvers_absent_return_none (ds : DataSet) (subseq tag : String)
    (k : Nat)
    (hs : findStringInGroupSequence ds "x52009229" subseq tag 0 = none)
    (hp : findStringInGroupSequence ds "x52009230" subseq tag k = none)
    (hpet : findStringInSequence ds "x00540022" tag = none)
    (hd : ds.string tag = none)
    (hf : ds.floatString tag = none)
    (hgs : (findInGroupSequence ds "x52009229" subseq 0).bind
      (fun g => g.floatString tag) = none)
    (hgp : (findInGroupSequence ds "x52009230" subseq k).bind
      (fun g => g.floatString tag) = none) :
    findStringEverywhere ds subseq tag k = none ∧
    findFloatStringInFrameGroupSequence ds subseq tag k = none := by
  constructor
  · simp [findStringEverywhere, findStringInFrameGroupSequence, jsOrS, jsTruthyS,
      hs, hp, hpet, hd]
  · have h1 : findFloatStringInGroupSequence ds "x52009229" subseq tag 0 = none := by
      simp only [findFloatStringInGroupSequence, hf]
      cases hg : findInGroupSequence ds "x52009229" subseq 0 with
      | none => rfl
      | some g => simpa [hg] using hgs
    have h2 : findFloatStringInGroupSequence ds "x52009230" subseq tag k = none := by
      simp only [findFloatStringInGroupSequence, hf]
      cases hg : findInGroupSequence ds "x52009230" subseq k with
      | none => rfl
      | some g => simpa [hg] using hgp
    simp [findFloatStringInFrameGroupSequence, jsOrQ, jsTruthyQ, h1, h2]

/-- C5 witness: on a data set with no attributes at all, both resolver
variants return none. -/
theorem resolvers_absent_return_none_witness :
    findStringEverywhere emptyDs "x00289110" "x00280030" 0 = none ∧
    findFloatStringInFrameGroupSequence emptyDs "x00289145" "x00281052" 0 = none :=
  resolvers_absent_return_none emptyDs "x00289110" "x00280030" 0 rfl rfl rfl rfl rfl
    rfl rfl

/-!
C10.
-/

/-- C10: whenever the per-frame functional group sequence x52009230 or its
referenced-segment subsequence x0062000a is missing at the given frame
index (the group lookup fails), `referencedSegmentNumber` returns the
numeric sentinel -1, not the absence marker. -/
theorem referencedSegmentNumber_sentinel (ds : DataSet) (k : Nat)
    (h : findInGroupSequence ds "x52009230" "x0062000a" k = none) :
    referencedSegmentNumber ds k = some (-1) ∧
    referencedSegmentNumber ds k ≠ none := by
  constructor
  · simp [referencedSegmentNumber, h]
  · simp [referencedSegmentNumber, h]

/-- C10 witness: on an empty data set the sentinel -1 is returned. -/
theorem referencedSegmentNumber_sentinel_witness :
    referencedSegmentNumber emptyDs 0 = some (-1) ∧
    referencedSegmentNumber emptyDs 0 ≠ none :=
  referencedSegmentNumber_sentinel emptyDs 0 rfl

/-!
C2.
-/

/-- Two-frame native data set: 1x1 pixels, 8 bits allocated, one sample per
pixel, so the spec's per-frame offset for frame 1 would be 1 byte into the
pixel-data element. -/
def cexNativeDs : DataSet :=
  .mk [("x00020010", "1.2.840.10008.1.2.1")] [] [("x00280008", 2)]
    [("x00280010", 1), ("x00280011", 1), ("x00280100", 8), ("x00280002", 1)]
    [("x7fe00010", .mk 100 2 none none none)]

/-- C2 counterexample: on a two-frame native object the decode calls for
frame 0 and frame 1 are identical (same byte range, the whole pixel-data
element starting at its data offset), although the spec's formula places
frame 1 one byte further in; distinct frame indices do not decode distinct
byte ranges. -/
theorem decodePixelData_not_per_frame_cex :
    decodePixelData cexNativeDs 1 = decodePixelData cexNativeDs 0 ∧
    (decodePixelData cexNativeDs 1).map DecodeCall.byteOffset = some 100 ∧
    (decodePixelData cexNativeDs 0).map DecodeCall.byteOffset = some 100 ∧
    specNativeFrameOffset 8 1 1 1 1 = 1 := by
  refine ⟨rfl, rfl, rfl, rfl⟩

/-- C2 amended: `_decodePixelData` (and hence `extractPixelData`) ignores
the frame index entirely: for every data set the decode call is the same
for all frame indices, and the byte range handed to the decoder is always
the whole pixel-data element x7fe00010 (its dataOffset and length), with no
per-frame offset computed. -/
theorem decodePixelData_frame_independent (ds : DataSet) (k l : Nat)
    (decodeFn : DecodeCall → TypedArrayBuf) :
    decodePixelData ds k = decodePixelData ds l ∧
    (decodePixelData ds k).map DecodeCall.byteOffset =
      (ds.elements "x7fe00010").map Element.dataOffset ∧
    (decodePixelData ds k).map DecodeCall.byteLength =
      (ds.elements "x7fe00010").map Element.byteLength ∧
    extractPixelData ds decodeFn k = extractPixelData ds decodeFn l := by
  refine ⟨rfl, ?_, ?_, rfl⟩
  · cases he : ds.elements "x7fe00010" <;> simp [decodePixelData, he]
  · cases he : ds.elements "x7fe00010" <;> simp [decodePixelData, he]

/-!
C3.
-/

/-- Single-sample PALETTE COLOR data set with a pixel-data element. -/
def cexPaletteDs : DataSet :=
  .mk [("x00280004", "PALETTE COLOR")] [] [] [("x00280002", 1)]
    [("x7fe00010", .mk 0 4 none none none)]

/-- Monochrome data set with a pixel-data element. -/
def monoDs : DataSet :=
  .mk [("x00280004", "MONOCHROME2")] [] [] [("x00280002", 1)]
    [("x7fe00010", .mk 0 4 none none none)]

/-- Stand-in external decoder returning a fixed single-channel buffer. -/
def exDecode : DecodeCall → TypedArrayBuf := fun _ => ⟨TypedKind.uint16, [7]⟩

/-- C3 counterexample: a buffer decoded with samplesPerPixel = 1 but
photometric interpretation PALETTE COLOR is not passed through:
`extractPixelData` routes it into color conversion, which raises the
unsupported-color-space error. -/
theorem extractPixelData_spp1_cex :
    samplesPerPixel cexPaletteDs = some 1 ∧
    extractPixelData cexPaletteDs exDecode 0 =
      some (Except.error
        (ColorError.unsupportedPhotometric (some "PALETTE COLOR"))) := by
  refine ⟨rfl, rfl⟩

/-- C3 amended: pass-through is decided by the photometric interpretation,
not by samplesPerPixel: whenever the photometric interpretation is not one
of the seven strings that make `numberOfChannels` 3 (RGB, PALETTE COLOR,
YBR_FULL, YBR_FULL_422, YBR_PARTIAL_422, YBR_PARTIAL_420, YBR_RCT), the
decoded samples are returned unchanged and no color-space error can be
raised, regardless of samplesPerPixel; when it is one of those strings,
color conversion runs even if samplesPerPixel is 1. -/
theorem extractPixelData_passthrough (ds : DataSet)
    (decodeFn : DecodeCall → TypedArrayBuf) (k : Nat)
    (h : photometricInterpretation ds ∉
      [some "RGB", some "PALETTE COLOR", some "YBR_FULL", some "YBR_FULL_422",
       some "YBR_PARTIAL_422", some "YBR_PARTIAL_420", some "YBR_RCT"]) :
    extractPixelData ds decodeFn k =
      (decodePixelData ds k).map (fun c => Except.ok (decodeFn c)) := by
  simp only [List.mem_cons, List.not_mem_nil, or_false, not_or] at h
  obtain ⟨h1, h2, h3, h4, h5, h6, h7⟩ := h
  have hch : numberOfChannels ds = 1 := by
    simp [numberOfChannels, bne_iff_ne, h1, h2, h3, h4, h5, h6, h7]
  simp [extractPixelData, hch]

/-- C3 witness: a MONOCHROME2 buffer is returned unchanged. -/
theorem extractPixelData_passthrough_witness :
    extractPixelData monoDs exDecode 0 =
      some (Except.ok ⟨TypedKind.uint16, [7]⟩) := by
  rw [extractPixelData_passthrough monoDs exDecode 0 (by decide)]
  rfl

/-!
C4.
-/

/-- C4: the three-way decision of `getEncapsulatedImageFrame`: a non-empty
basic offset table selects the offset-table read; an empty or absent table
with declared frame count differing from the fragment count selects the
read through a synthesized JPEG basic offset table; an empty or absent
table with matching counts selects the direct per-fragment read, indexed by
the frame index.  `framesAreFragmented` is exactly the declared-vs-physical
fragment count mismatch. -/
theorem getEncapsulatedImageFrame_three_way (ds : DataSet) (k : Nat) :
    (jsTruthyN (((ds.elements "x7fe00010").bind Element.basicOffsetTable).map
        List.length) = true →
       getEncapsulatedImageFrame ds k = EncapFrameRead.viaOffsetTable k) ∧
    (jsTruthyN (((ds.elements "x7fe00010").bind Element.basicOffsetTable).map
        List.length) = false →
     framesAreFragmented ds = true →
       getEncapsulatedImageFrame ds k = EncapFrameRead.viaSynthesizedJpegTable k) ∧
    (jsTruthyN (((ds.elements "x7fe00010").bind Element.basicOffsetTable).map
        List.length) = false →
     framesAreFragmented ds = false →
       getEncapsulatedImageFrame ds k = EncapFrameRead.fromFragments k) ∧
    (∀ nf frags, ds.intString "x00280008" = some nf →
       (ds.elements "x7fe00010").bind Element.fragments = some frags →
       (framesAreFragmented ds = true ↔ nf ≠ (frags.length : Int))) := by
  refine ⟨?_, ?_, ?_, ?_⟩
  · intro h1
    cases he : ds.elements "x7fe00010" with
    | none => simp_all [jsTruthyN]
    | some el =>
      cases hbot : el.basicOffsetTable with
      | none => simp_all [jsTruthyN]
      | some bot => simp_all [getEncapsulatedImageFrame, jsTruthyN]
  · intro h1 h2
    cases he : ds.elements "x7fe00010" with
    | none => simp_all [getEncapsulatedImageFrame, jsTruthyN]
    | some el =>
      cases hbot : el.basicOffsetTable with
      | none => simp_all [getEncapsulatedImageFrame, jsTruthyN]
      | some bot => simp_all [getEncapsulatedImageFrame, jsTruthyN]
  · intro h1 h2
    cases he : ds.elements "x7fe00010" with
    | none => simp_all [getEncapsulatedImageFrame, jsTruthyN]
    | some el =>
      cases hbot : el.basicOffsetTable with
      | none => simp_all [getEncapsulatedImageFrame, jsTruthyN]
      | some bot => simp_all [getEncapsulatedImageFrame, jsTruthyN]
  · intro nf frags hnf hfr
    simp [framesAreFragmented, hnf, hfr, jsStrictNeqNum, bne_iff_ne]

/-- Encapsulated data set with a non-empty basic offset table. -/
def encapBotDs : DataSet :=
  .mk [] [] [("x00280008", 2)] []
    [("x7fe00010", .mk 0 10 none (some [4, 4]) (some [0, 4]))]

/-- Encapsulated data set, empty offset table, one declared frame split
over three fragments. -/
def encapSplitDs : DataSet :=
  .mk [] [] [("x00280008", 1)] []
    [("x7fe00010", .mk 0 12 none (some [4, 4, 4]) (some []))]

/-- Encapsulated data set, empty offset table, two declared frames in two
fragments. -/
def encapPerFrameDs : DataSet :=
  .mk [] [] [("x00280008", 2)] []
    [("x7fe00010", .mk 0 8 none (some [4, 4]) none)]

/-- C4 witness: one concrete data set per branch of the three-way
decision. -/
theorem getEncapsulatedImageFrame_three_way_witness :
    getEncapsulatedImageFrame encapBotDs 0 = EncapFrameRead.viaOffsetTable 0 ∧
    getEncapsulatedImageFrame encapSplitDs 0 =
      EncapFrameRead.viaSynthesizedJpegTable 0 ∧
    getEncapsulatedImageFrame encapPerFrameDs 1 = EncapFrameRead.fromFragments 1 ∧
    (framesAreFragmented encapSplitDs = true ↔ (1 : Int) ≠ (3 : Int)) :=
  ⟨(getEncapsulatedImageFrame_three_way encapBotDs 0).1 rfl,
   (getEncapsulatedImageFrame_three_way encapSplitDs 0).2.1 rfl rfl,
   (getEncapsulatedImageFrame_three_way encapPerFrameDs 1).2.2.1 rfl rfl,
   (getEncapsulatedImageFrame_three_way encapSplitDs 0).2.2.2 1 [4, 4, 4] rfl rfl⟩

/-!
C6.
-/

/-- Direct-read precedence of the float-string resolver: when the flat tag
is present on the root data set its value is returned unchanged, whatever
the group sequences hold (the zero value falls through the JavaScript `||`
to the per-frame call, whose own direct read returns the same zero). -/
lemma findFloatString_direct (ds : DataSet) (subseq tag : String) (k : Nat)
    (v : ℚ) (hv : ds.floatString tag = some v) :
    findFloatStringInFrameGroupSequence ds subseq tag k = some v := by
  have h1 : findFloatStringInGroupSequence ds "x52009229" subseq tag 0 = some v := by
    simp [findFloatStringInGroupSequence, hv]
  have h2 : findFloatStringInGroupSequence ds "x52009230" subseq tag k = some v := by
    simp [findFloatStringInGroupSequence, hv]
  by_cases hz : v = 0
  · subst hz
    simp [findFloatStringInFrameGroupSequence, jsOrQ, jsTruthyQ, h1, h2]
  · simp [findFloatStringInFrameGroupSequence, jsOrQ, jsTruthyQ, h1, h2, hz]

/-- C6: for rescale intercept x00281052, rescale slope x00281053, window
center x00281050 and window width x00281051, at every frame index a value
present on the flat root tag is returned in preference to anything in the
shared or per-frame group sequences; the group search is consulted only
when the direct read is absent. -/
theorem floatResolvers_direct_precedence (ds : DataSet) (k : Nat) (v : ℚ) :
    (ds.floatString "x00281052" = some v → rescaleIntercept ds k = some v) ∧
    (ds.floatString "x00281053" = some v → rescaleSlope ds k = some v) ∧
    (ds.floatString "x00281050" = some v → windowCenter ds k = some v) ∧
    (ds.floatString "x00281051" = some v → windowWidth ds k = some v) ∧
    (∀ subseq tag, ds.floatString tag = none →
       findFloatStringInFrameGroupSequence ds subseq tag k =
         jsOrQ ((findInGroupSequence ds "x52009229" subseq 0).bind
                  (fun g => g.floatString tag))
               ((findInGroupSequence ds "x52009230" subseq k).bind
                  (fun g => g.floatString tag))) := by
  refine ⟨fun hv => findFloatString_direct ds "x00289145" "x00281052" k v hv,
          fun hv => findFloatString_direct ds "x00289145" "x00281053" k v hv,
          fun hv => findFloatString_direct ds "x00289132" "x00281050" k v hv,
          fun hv => findFloatString_direct ds "x00289132" "x00281051" k v hv,
          ?_⟩
  intro subseq tag hnone
  have hg : ∀ sq i, findFloatStringInGroupSequence ds sq subseq tag i =
      (findInGroupSequence ds sq subseq i).bind (fun g => g.floatString tag) := by
    intro sq i
    simp only [findFloatStringInGroupSequence, hnone]
    cases findInGroupSequence ds sq subseq i <;> rfl
  rw [findFloatStringInFrameGroupSequence, hg, hg]

/-- Data set carrying rescale and window values both on the flat root tags
and (differently) in the shared functional group sequence. -/
def directFloatDs : DataSet :=
  .mk []
    [("x00281052", 3), ("x00281053", 2), ("x00281050", 40), ("x00281051", 400)]
    [] []
    [("x52009229",
      .mk 0 0
        (some [.mk (some (.mk [] [] [] []
          [("x00289145",
            .mk 0 0
              (some [.mk (some (.mk []
                [("x00281052", 99), ("x00281053", 98)] [] [] []))])
              none none)]))])
        none none)]

/-- C6 witness: the flat values win over the group-sequence values at a
non-zero frame index. -/
theorem floatResolvers_direct_precedence_witness :
    rescaleIntercept directFloatDs 2 = some 3 ∧
    rescaleSlope directFloatDs 2 = some 2 ∧
    windowCenter directFloatDs 2 = some 40 ∧
    windowWidth directFloatDs 2 = some 400 :=
  ⟨(floatResolvers_direct_precedence directFloatDs 2 3).1 rfl,
   (floatResolvers_direct_precedence directFloatDs 2 2).2.1 rfl,
   (floatResolvers_direct_precedence directFloatDs 2 40).2.2.1 rfl,
   (floatResolvers_direct_precedence directFloatDs 2 400).2.2.2.1 rfl⟩

/-!
C7.
-/

/-- C7: with photometric interpretation exactly YBR_FULL and a recognized
sample kind, color conversion returns a buffer of the same element kind and
length whose pixel `i` holds the stored values of `R = Y + 1.402 (Cr -
128)`, `G = Y - 0.34414 (Cb - 128) - 0.71414 (Cr - 128)`, `B = Y + 1.772
(Cb - 128)` (each written through the typed-array element coercion of that
kind, which is exact whenever the formula value is an integer of the
element range). -/
theorem convertColorSpace_ybrFull (ds : DataSet) (u : TypedArrayBuf) (n : Nat)
    (hpi : photometricInterpretation ds = some "YBR_FULL")
    (hk : supportedForConvert u.kind = true)
    (hlen : u.data.length = 3 * n) :
    convertColorSpace ds u = Except.ok ⟨u.kind, ybrFullToRGB u.kind u.data⟩ ∧
    (ybrFullToRGB u.kind u.data).length = u.data.length ∧
    ∀ i, i < n →
      (ybrFullToRGB u.kind u.data).getD (3 * i) 0 =
        storeVal u.kind (u.data.getD (3 * i) 0 +
          1.402 * (u.data.getD (3 * i + 2) 0 - 128)) ∧
      (ybrFullToRGB u.kind u.data).getD (3 * i + 1) 0 =
        storeVal u.kind (u.data.getD (3 * i) 0 -
          0.34414 * (u.data.getD (3 * i + 1) 0 - 128) -
          0.71414 * (u.data.getD (3 * i + 2) 0 - 128)) ∧
      (ybrFullToRGB u.kind u.data).getD (3 * i + 2) 0 =
        storeVal u.kind (u.data.getD (3 * i) 0 +
          1.772 * (u.data.getD (3 * i + 1) 0 - 128)) := by
  have hrgb : interpretAsRGB "YBR_FULL" = false := rfl
  have hnp : u.data.length / 3 = n := by omega
  have hybr : ybrFullToRGB u.kind u.data = pixelLoop n (ybrTriple u.kind u.data) := by
    rw [ybrFullToRGB, hnp]
  have hlen3 : ∀ j, (ybrTriple u.kind u.data j).length = 3 := fun j => rfl
  refine ⟨?_, ?_, ?_⟩
  · simp [convertColorSpace, hpi, hrgb, hk]
  · rw [hybr, pixelLoop_length n _ hlen3, hlen]
  · intro i hi
    refine ⟨?_, ?_, ?_⟩
    · have h0 := pixelLoop_getD n (ybrTriple u.kind u.data) hlen3 i 0 hi (by norm_num)
      rw [hybr]
      simpa [ybrTriple] using h0
    · have h1 := pixelLoop_getD n (ybrTriple u.kind u.data) hlen3 i 1 hi (by norm_num)
      rw [hybr]
      simpa [ybrTriple] using h1
    · have h2 := pixelLoop_getD n (ybrTriple u.kind u.data) hlen3 i 2 hi (by norm_num)
      rw [hybr]
      simpa [ybrTriple] using h2

/-- YBR_FULL data set with no planar configuration attribute. -/
def ybrDs : DataSet := .mk [("x00280004", "YBR_FULL")] [] [] [] []

/-- C7 witness: the neutral gray pixel Y = Cb = Cr = 128 converts to
exactly R = G = B = 128, with kind and length preserved. -/
theorem convertColorSpace_ybrFull_witness :
    convertColorSpace ybrDs ⟨TypedKind.uint8, [128, 128, 128]⟩ =
      Except.ok ⟨TypedKind.uint8, [128, 128, 128]⟩ := by
  rw [(convertColorSpace_ybrFull ybrDs ⟨TypedKind.uint8, [128, 128, 128]⟩ 1
    rfl rfl rfl).1]
  norm_num [ybrFullToRGB, ybrTriple, pixelLoop, storeVal, jsTrunc, wrapStore,
    List.range_succ]

/-!
C8.
-/

/-- C8: for an RGB-like photometric interpretation (RGB, YBR_RCT, YBR_ICT,
YBR_FULL_422) with planar configuration 1, a recognized sample kind and
in-range samples, color conversion returns a buffer of the same element
kind and length with the three planes interleaved: output pixel `i` is
`plane0[i], plane1[i], plane2[i]`. -/
theorem convertColorSpace_planarDeinterleave (ds : DataSet) (u : TypedArrayBuf)
    (s : String) (n : Nat)
    (hpi : photometricInterpretation ds = some s)
    (hs : interpretAsRGB s = true)
    (hplanar : planarConfiguration ds = some 1)
    (hk : supportedForConvert u.kind = true)
    (hlen : u.data.length = 3 * n)
    (hwf : ∀ q ∈ u.data, storeVal u.kind q = q) :
    convertColorSpace ds u = Except.ok ⟨u.kind, deinterleavePlanes u.kind u.data⟩ ∧
    (deinterleavePlanes u.kind u.data).length = u.data.length ∧
    ∀ i, i < n →
      (deinterleavePlanes u.kind u.data).getD (3 * i) 0 = u.data.getD i 0 ∧
      (deinterleavePlanes u.kind u.data).getD (3 * i + 1) 0 = u.data.getD (n + i) 0 ∧
      (deinterleavePlanes u.kind u.data).getD (3 * i + 2) 0 =
        u.data.getD (2 * n + i) 0 := by
  have hnp : u.data.length / 3 = n := by omega
  have hdi : deinterleavePlanes u.kind u.data =
      pixelLoop n (planarTriple u.kind u.data n) := by
    rw [deinterleavePlanes, hnp]
  have hlen3 : ∀ j, (planarTriple u.kind u.data n j).length = 3 := fun j => rfl
  have hmem : ∀ j, j < u.data.length →
      storeVal u.kind (u.data.getD j 0) = u.data.getD j 0 := by
    intro j hj
    rw [List.getD_eq_getElem u.data 0 hj]
    exact hwf _ (List.getElem_mem hj)
  refine ⟨?_, ?_, ?_⟩
  · simp [convertColorSpace, hpi, hplanar, hs, hk]
  · rw [hdi, pixelLoop_length n _ hlen3, hlen]
  · intro i hi
    refine ⟨?_, ?_, ?_⟩
    · have h0 := pixelLoop_getD n (planarTriple u.kind u.data n) hlen3 i 0 hi
        (by norm_num)
      simp only [planarTriple, Nat.add_zero, List.getD_cons_zero] at h0
      rw [hdi, h0]
      exact hmem i (by omega)
    · have h1 := pixelLoop_getD n (planarTriple u.kind u.data n) hlen3 i 1 hi
        (by norm_num)
      simp only [planarTriple, List.getD_cons_succ, List.getD_cons_zero] at h1
      rw [hdi, h1]
      exact hmem (n + i) (by omega)
    · have h2 := pixelLoop_getD n (planarTriple u.kind u.data n) hlen3 i 2 hi
        (by norm_num)
      simp only [planarTriple, List.getD_cons_succ, List.getD_cons_zero] at h2
      rw [hdi, h2]
      exact hmem (2 * n + i) (by omega)

/-- RGB data set with planar configuration 1. -/
def rgbPlanarDs : DataSet :=
  .mk [("x00280004", "RGB")] [] [] [("x00280006", 1)] []

/-- C8 witness: the planar buffer `[R0, R1, G0, G1, B0, B1]` is
deinterleaved to `[R0, G0, B0, R1, G1, B1]`. -/
theorem convertColorSpace_planarDeinterleave_witness :
    convertColorSpace rgbPlanarDs ⟨TypedKind.uint8, [1, 2, 3, 4, 5, 6]⟩ =
      Except.ok ⟨TypedKind.uint8, [1, 3, 5, 2, 4, 6]⟩ := by
  rw [(convertColorSpace_planarDeinterleave rgbPlanarDs
    ⟨TypedKind.uint8, [1, 2, 3, 4, 5, 6]⟩ "RGB" 2 rfl rfl rfl rfl rfl
    (by intro q hq; fin_cases hq <;> rfl)).1]
  norm_num [deinterleavePlanes, planarTriple, pixelLoop, storeVal, jsTrunc,
    wrapStore, List.range_succ]

/-!
C9.
-/

/-- Unfolding of `sortDicomFiles` one record at a time. -/
lemma sortDicomFiles_cons (x : DicomFile) (l : List DicomFile) :
    sortDicomFiles (x :: l) =
      insertByLt (fun a b => decide (compareDicomFiles a b < 0)) x
        (sortDicomFiles l) := rfl

/-- C9: the within-series ordering is decided by the single pairwise
three-tier comparator: both records carrying sliceLocation compare by it;
otherwise both carrying imagePositionZ compare by it; otherwise both
carrying instanceNumber compare by it; otherwise the pair compares equal,
and an all-tied list is left in its input order by the stable sort.  The
tier is chosen per pair, from the two records alone. -/
theorem compareDicomFiles_tiers (a b : DicomFile) (files : List DicomFile) :
    (∀ x y, a.sliceLocation = some x → b.sliceLocation = some y →
       compareDicomFiles a b = x - y) ∧
    ((a.sliceLocation = none ∨ b.sliceLocation = none) →
     ∀ x y, a.imagePositionZ = some x → b.imagePositionZ = some y →
       compareDicomFiles a b = x - y) ∧
    ((a.sliceLocation = none ∨ b.sliceLocation = none) →
     (a.imagePositionZ = none ∨ b.imagePositionZ = none) →
     ∀ x y, a.instanceNumber = some x → b.instanceNumber = some y →
       compareDicomFiles a b = (x : ℚ) - (y : ℚ)) ∧
    ((a.sliceLocation = none ∨ b.sliceLocation = none) →
     (a.imagePositionZ = none ∨ b.imagePositionZ = none) →
     (a.instanceNumber = none ∨ b.instanceNumber = none) →
       compareDicomFiles a b = 0) ∧
    ((∀ x ∈ files, ∀ y ∈ files, compareDicomFiles x y = 0) →
       sortDicomFiles files = files) := by
  refine ⟨?_, ?_, ?_, ?_, ?_⟩
  · intro x y hx hy
    simp [compareDicomFiles, hx, hy]
  · intro h x y hx hy
    cases ha : a.sliceLocation <;> cases hb : b.sliceLocation <;>
      simp_all [compareDicomFiles]
  · intro h h2 x y hx hy
    cases ha : a.sliceLocation <;> cases hb : b.sliceLocation <;>
      cases ha2 : a.imagePositionZ <;> cases hb2 : b.imagePositionZ <;>
        simp_all [compareDicomFiles]
  · intro h h2 h3
    cases ha : a.sliceLocation <;> cases hb : b.sliceLocation <;>
      cases ha2 : a.imagePositionZ <;> cases hb2 : b.imagePositionZ <;>
        cases ha3 : a.instanceNumber <;> cases hb3 : b.instanceNumber <;>
          simp_all [compareDicomFiles]
  · intro hall
    induction files with
    | nil => rfl
    | cons z zs ih =>
      have hzs : sortDicomFiles zs = zs :=
        ih (fun p hp q hq => hall p (List.mem_cons_of_mem z hp) q
          (List.mem_cons_of_mem z hq))
      rw [sortDicomFiles_cons, hzs]
      cases zs with
      | nil => rfl
      | cons w ws =>
        have hw : compareDicomFiles w z = 0 :=
          hall w (List.mem_cons_of_mem z (List.mem_cons_self w ws)) z
            (List.mem_cons_self z (w :: ws))
        simp [insertByLt, hw]

/-- Record carrying only a slice location. -/
def slFile (q : ℚ) : DicomFile := ⟨"uid", some q, none, none⟩

/-- Record carrying only an instance number. -/
def inFile (m : Int) : DicomFile := ⟨"uid", none, none, some m⟩

/-- C9 witness: two records both missing sliceLocation but both carrying
instanceNumber compare by instanceNumber, and a list keyed by sliceLocation
[3, 1, 2] sorts ascending to [1, 2, 3]. -/
theorem compareDicomFiles_tiers_witness :
    compareDicomFiles (inFile 5) (inFile 3) = 2 ∧
    sortDicomFiles [slFile 3, slFile 1, slFile 2] =
      [slFile 1, slFile 2, slFile 3] := by
  constructor
  · rw [(compareDicomFiles_tiers (inFile 5) (inFile 3) []).2.2.1
      (Or.inl rfl) (Or.inl rfl) 5 3 rfl rfl]
    norm_num
  · norm_num [sortDicomFiles, insertByLt, compareDicomFiles, slFile]

end DicomLoader
